import Mathlib

/-!
# music-bot-v2: the Lavalink client

A shallow embedding of `pkg/lavalink-client/client/client.go` and `events.go`:
the configuration validation of `NewClient`, the connection lifecycle
(`ConnectWS`, `Disconnect`) and the dispatch loop (`listenWSMessages`).

The libraries the package calls (`regexp`, `encoding/json`,
`gorilla/websocket`) are outside the repository. The two regular expressions
are translated pattern by pattern and run by a small matcher; the results of
the transport (`DialContext`, `ReadMessage`, `Close`) and of `json.Unmarshal`
are inputs of the model.
-/

namespace client

/-! ## Regular expressions (`regexp`) -/

/-- Syntax of the patterns used by `regexDomain` and `regexIp`.
`cls rs` is a character class given by its ranges (a single character `c` is
the range `(c, c)`), `seq` is concatenation and `rep a lo hi` is the counted
repetition `a{lo,hi}`, with `hi = none` for `a{lo,}`; so `a?` is
`rep a 0 (some 1)` and `a+` is `rep a 1 none`. -/
inductive Regex where
  | cls (ranges : List (Char × Char))
  | seq (a b : Regex)
  | rep (a : Regex) (lo : Nat) (hi : Option Nat)

namespace Regex

/-- Membership of a character in a class. -/
def inClass (ranges : List (Char × Char)) (c : Char) : Bool :=
  ranges.any fun r => decide (r.1.toNat ≤ c.toNat) && decide (c.toNat ≤ r.2.toNat)

/-- The remainders left by exactly `k` successive matches of `f`. -/
def applyN (f : List Char → List (List Char)) : Nat → List Char → List (List Char)
  | 0, s => [s]
  | k + 1, s => (applyN f k s).flatMap f

/-- The remainders left by `0` to `n` further matches of `f` from `cur`. -/
def upTo (f : List Char → List (List Char)) : Nat → List (List Char) → List (List Char)
  | 0, cur => cur
  | n + 1, cur => cur ++ upTo f n (cur.flatMap f)

/-- All the ways `r` matches a prefix of `s`: the list of what is left of `s`
after each. An unbounded repetition needs at most `s.length` rounds beyond its
minimum, since a round that consumes nothing adds no remainder. -/
def matchFrom : Regex → List Char → List (List Char)
  | cls _, [] => []
  | cls rs, c :: cs => if inClass rs c then [cs] else []
  | seq a b, s => (matchFrom a s).flatMap (matchFrom b)
  | rep a lo (some hi), s => upTo (matchFrom a) (hi - lo) (applyN (matchFrom a) lo s)
  | rep a lo none, s => upTo (matchFrom a) s.length (applyN (matchFrom a) lo s)

/-- Go `(*Regexp).MatchString` for a pattern written between `^` and `$`: the
whole text has to match (without the `m` flag `$` is the end of the text). -/
def MatchString (r : Regex) (s : String) : Bool :=
  (matchFrom r s.data).any List.isEmpty

/-- A pattern is well formed when every bounded repetition `a{lo,hi}` has
`lo ≤ hi`; `regexp` refuses to compile any other. -/
def WF : Regex → Bool
  | cls _ => true
  | seq a b => WF a && WF b
  | rep a lo (some hi) => WF a && decide (lo ≤ hi)
  | rep a _ none => WF a

/-- The meaning of a pattern: `Matches r s t` says that `r` matches a prefix
of `s` and that `t` is what is left of `s` after it. A repetition is done once
its minimum is zero, or takes one more copy while its maximum allows. -/
inductive Matches : Regex → List Char → List Char → Prop
  | cls (rs : List (Char × Char)) (c : Char) (cs : List Char) :
      inClass rs c = true → Matches (cls rs) (c :: cs) cs
  | seq (a b : Regex) (s t u : List Char) :
      Matches a s t → Matches b t u → Matches (seq a b) s u
  | done (a : Regex) (hi : Option Nat) (s : List Char) : Matches (rep a 0 hi) s s
  | more (a : Regex) (lo : Nat) (s t u : List Char) :
      Matches a s t → Matches (rep a (lo - 1) none) t u → Matches (rep a lo none) s u
  | moreBounded (a : Regex) (lo hi : Nat) (s t u : List Char) :
      Matches a s t → Matches (rep a (lo - 1) (some hi)) t u →
      Matches (rep a lo (some (hi + 1))) s u

end Regex

/-- The class `[a-zA-Z0-9]`. -/
def alnum : Regex := .cls [('a', 'z'), ('A', 'Z'), ('0', '9')]

/-- The class `[a-zA-Z0-9-]`. -/
def alnumHyphen : Regex := .cls [('a', 'z'), ('A', 'Z'), ('0', '9'), ('-', '-')]

/-- The class `[a-zA-Z]`. -/
def alpha : Regex := .cls [('a', 'z'), ('A', 'Z')]

/-- The class `\d`, the ASCII digits. -/
def digit : Regex := .cls [('0', '9')]

/-- The literal dot `\.`. -/
def dot : Regex := .cls [('.', '.')]

/-- The optional port `(:\d{1,5})?`. -/
def optPort : Regex := .rep (.seq (.cls [(':', ':')]) (.rep digit 1 (some 5))) 0 (some 1)

/-- One label and its dot, `[a-zA-Z0-9](?:[a-zA-Z0-9-]{0,61}[a-zA-Z0-9])?\.`. -/
def domainLabel : Regex :=
  .seq alnum (.seq (.rep (.seq (.rep alnumHyphen 0 (some 61)) alnum) 0 (some 1)) dot)

/-- Pattern `^(?:[a-zA-Z0-9](?:[a-zA-Z0-9-]{0,61}[a-zA-Z0-9])?\.)+[a-zA-Z]{2,}(:\d{1,5})?$` -/
def regexDomain : Regex :=
  .seq (.rep domainLabel 1 none) (.seq (.rep alpha 2 none) optPort)

/-- Pattern `^(?:\d{1,3}\.){3}\d{1,3}(:\d{1,5})?$` -/
def regexIp : Regex :=
  .seq (.rep (.seq (.rep digit 1 (some 3)) dot) 3 (some 3)) (.seq (.rep digit 1 (some 3)) optPort)

/-! ## Data model -/

/-- The `error` values the package returns: its seven package-level errors, an
error made on the spot by `errors.New`, a `*websocket.CloseError`, and any
other error handed over by a library. -/
inductive GoError where
  | ErrConnectionAlreadyEstablished
  | ErrConnectionNotEstablished
  | ErrEmptyClientId
  | ErrRequestNil
  | ErrHostInvalid
  | ErrNilLogger
  | ErrEmptyConfig
  | New (text : String)
  | CloseError (Code : Int) (Text : String)
  | library (text : String)
  deriving DecidableEq, Repr

/-- Variable `DefaultTimeOut`, thirty seconds in nanoseconds. -/
def DefaultTimeOut : Nat := 1000000000 * 30

/-- Variable `DefaultClientName`. -/
def DefaultClientName : String := "music-bot-v2"

/-- Variable `endpointWS`. -/
def endpointWS : String := "/v4/websocket"

/-- Constant `websocket.TextMessage`. -/
def TextMessage : Int := 1

/-- Constant `websocket.BinaryMessage`. -/
def BinaryMessage : Int := 2

/-- The message type `ReadMessage` gives with an error of `NextReader`
(gorilla's `noFrame`). -/
def noFrame : Int := -1

/-- Constant `websocket.CloseNormalClosure`. -/
def CloseNormalClosure : Int := 1000

/-- A payload (`[]byte`), held as text. -/
abbrev Bytes := String

/-- Type `Message`, a string. -/
abbrev Message := String

/-- Variable `MessageReady`. -/
def MessageReady : Message := "ready"

/-- Variable `MessagePlayerUpdate`. -/
def MessagePlayerUpdate : Message := "playerUpdate"

/-- Variable `MessageStats`. -/
def MessageStats : Message := "stats"

/-- Variable `MessageRaw`. -/
def MessageRaw : Message := "event"

/-- One call of a handler: the key it was found under and the payload it got. -/
structure Invocation where
  op : Message
  data : Bytes
  deriving DecidableEq, Repr

/-- Type `MessageHandlerFunc`, `func([]byte) error`. A Go closure may keep state
between calls, so the calls made before this one are an argument too. -/
abbrev MessageHandlerFunc := List Invocation → Bytes → Option GoError

/-- Type `MessageHandlers`, `map[Message]MessageHandlerFunc`, as an association
list read by `List.lookup`; it is empty exactly when the map has no key. -/
abbrev MessageHandlers := List (Message × MessageHandlerFunc)

/-- Struct `RawGenericSocketMessage`. -/
structure RawGenericSocketMessage where
  Operation : String
  deriving DecidableEq, Repr

/-- Go `json.Unmarshal(data, &raw)`: from the payload and the value `raw` holds
before the call, the value it holds after and the error returned. -/
abbrev Unmarshal := Bytes → RawGenericSocketMessage → RawGenericSocketMessage × Option GoError

/-- Struct `ClientConfig`. -/
structure ClientConfig where
  Host : String
  Password : String
  ClientId : String
  Tls : Bool
  deriving DecidableEq, Repr

/-- Struct `logger.Logger`: its trace level and colour flag (the writer is left out). -/
structure Logger where
  level : Nat
  colorized : Bool
  deriving DecidableEq, Repr

/-- A call on the client's logger: the method and its message or format. -/
inductive LogCall where
  | Warn (msg : String)
  | Errorf (format : String)
  | Debug (format : String)
  deriving DecidableEq, Repr

/-- The part of `http.Client` that `NewClient` sets. -/
structure HttpClient where
  Timeout : Nat
  deriving DecidableEq, Repr

/-- The part of `websocket.Dialer` that `ConnectWS` sets. -/
structure Dialer where
  EnableCompression : Bool
  HandshakeTimeout : Nat
  deriving DecidableEq, Repr

/-- A `*websocket.Conn`: a handle, with the error its `Close` returns. -/
structure Conn where
  id : Nat
  closeErr : Option GoError
  deriving DecidableEq, Repr

/-- Struct `Client`. Its `config` is the non-nil configuration `NewClient` stored. -/
structure Client where
  httpClient : HttpClient
  socketConnection : Option Conn
  dialer : Option Dialer
  config : ClientConfig
  logger : Logger
  sessionId : String
  events : MessageHandlers

/-! ## Construction -/

/-- Function `NewClient`: `.error e` is the return `(nil, e)` and `.ok c` the return
`(c, nil)`; a nil `config` or `log` is `none`. -/
def NewClient (config : Option ClientConfig) (events : MessageHandlers) (log : Option Logger) :
    Except GoError Client :=
  match config with
  | none => .error .ErrEmptyConfig
  | some cfg =>
    if cfg = { Host := "", Password := "", ClientId := "", Tls := false } then
      .error .ErrEmptyConfig
    else if !regexDomain.MatchString cfg.Host && !regexIp.MatchString cfg.Host then
      .error .ErrHostInvalid
    else if cfg.ClientId = "" then
      .error .ErrEmptyClientId
    else
      match log with
      | none => .error .ErrNilLogger
      | some l =>
        .ok { httpClient := { Timeout := DefaultTimeOut }
              socketConnection := none
              dialer := none
              config := cfg
              logger := l
              sessionId := ""
              events := events }

/-! ## Connection lifecycle -/

/-- The `context.Context` given to `ConnectWS`; only the dialer reads it. -/
structure Context where
  deadline : Option Nat
  cancelled : Bool
  deriving DecidableEq, Repr

/-- Struct `http.Response`, the status code only. -/
structure Response where
  StatusCode : Int
  deriving DecidableEq, Repr

/-- The three values `DialContext` returns. -/
structure DialResult where
  conn : Option Conn
  res : Option Response
  err : Option GoError
  deriving DecidableEq, Repr

/-- Method `(*websocket.Dialer).DialContext`: from the dialer, the context, the URL
and the request header, what the transport answers. -/
abbrev DialContext := Dialer → Context → String → List (String × String) → DialResult

/-- How a call ends: it returns its `error` (`none` for nil), or panics. -/
inductive Ret where
  | value (err : Option GoError)
  | panic
  deriving DecidableEq, Repr

/-- What `ConnectWS` leaves: the client, how the call ended, and whether
`go c.listenWSMessages()` was executed. The goroutine is not run here: the
loop is described on its own by `listenWSMessages`. -/
structure ConnectOutcome where
  client : Client
  ret : Ret
  listening : Bool

/-- The dialer `ConnectWS` installs when the client has none. -/
def defaultDialer : Dialer := { EnableCompression := true, HandshakeTimeout := DefaultTimeOut }

/-- Lines 90 to 105 of `ConnectWS`: the header, the URL for the scheme chosen
by `Tls`, and the answer of `DialContext` to them. -/
def handshake (dial : DialContext) (c : Client) (ctx : Context) : DialResult :=
  let header : List (String × String) :=
    [("Authorization", c.config.Password), ("User-Id", c.config.ClientId),
     ("Client-Name", DefaultClientName)]
  if c.config.Tls then
    dial (c.dialer.getD defaultDialer) ctx ("wss://" ++ c.config.Host ++ endpointWS) header
  else
    dial (c.dialer.getD defaultDialer) ctx ("ws://" ++ c.config.Host ++ endpointWS) header

/-- Method `(*Client).ConnectWS`. A nil response read after a nil error is the
nil-pointer panic of `res.StatusCode`. -/
def ConnectWS (dial : DialContext) (c : Client) (ctx : Context) : ConnectOutcome :=
  let r : DialResult := handshake dial c ctx
  let c : Client := { c with dialer := some (c.dialer.getD defaultDialer) }
  match r.err with
  | some err => { client := c, ret := .value (some err), listening := false }
  | none =>
    match r.res with
    | none => { client := c, ret := .panic, listening := false }
    | some res =>
      if res.StatusCode ≠ 200 ∧ res.StatusCode = 403 then
        { client := c, ret := .value (some (.New "client: invalid password")), listening := false }
      else if res.StatusCode ≠ 200 ∧ res.StatusCode = 404 then
        { client := c, ret := .value (some (.New "client: invalid host")), listening := false }
      else
        { client := { c with socketConnection := r.conn }, ret := .value none, listening := true }

/-- Method `(*Client).Disconnect`. -/
def Disconnect (c : Client) : Option GoError :=
  match c.socketConnection with
  | none => some .ErrConnectionNotEstablished
  | some conn => conn.closeErr

/-! ## Dispatch loop -/

/-- The three values `ReadMessage` returns. -/
structure ReadResult where
  dataCode : Int
  data : Bytes
  err : Option GoError
  deriving DecidableEq, Repr

/-- Function `websocket.IsCloseError(err, codes...)`: `err` is a `*CloseError` whose
code is one of `codes`. -/
def IsCloseError (err : GoError) (codes : List Int) : Bool :=
  match err with
  | .CloseError code _ => codes.contains code
  | _ => false

/-- What the loop has done so far: the client, the calls on the logger, the
handler calls and the number of `ReadMessage` calls, oldest first. -/
structure LoopState where
  client : Client
  logs : List LogCall
  calls : List Invocation
  reads : Nat

/-- Where the loop stands once the transport has no further answer: it has
returned, it waits in `ReadMessage`, or it has panicked. -/
inductive LoopStatus where
  | returned
  | reading
  | panicked
  deriving DecidableEq, Repr

/-- A call on the logger, added to the record. -/
def LoopState.log (st : LoopState) (l : LogCall) : LoopState :=
  { st with logs := st.logs ++ [l] }

/-- The call `c.logger.Errorf(format, err)` of an `if err != nil` body: made
when there is an error, skipped when there is none. -/
def LoopState.logErr (st : LoopState) (err : Option GoError) (format : String) : LoopState :=
  match err with
  | some _ => st.log (.Errorf format)
  | none => st

/-- A handler call, added to the record. -/
def LoopState.called (st : LoopState) (op : Message) (data : Bytes) : LoopState :=
  { st with calls := st.calls ++ [{ op := op, data := data }] }

/-- The body of `if dataCode == websocket.TextMessage`, lines 158 to 174: the
envelope is decoded, a decoding error is logged, and the operation the envelope
then holds is looked up in the registry. -/
def dispatch (unmarshal : Unmarshal) (st : LoopState) (data : Bytes) : LoopState :=
  let u := unmarshal data { Operation := "" }
  let raw := u.1
  let st := st.logErr u.2 "client: error on unmarshal message: %v"
  match st.client.events.lookup raw.Operation with
  | some handler =>
    match handler st.calls data with
    | some _ => (st.called raw.Operation data).log (.Errorf "client: error on handle event %s: %v")
    | none => (st.called raw.Operation data).log (.Debug "client: event \"%s\" parsed")
  | none => st.log (.Debug "client: not found handler for event -> %s")

/-- One pass of the `for` body on what `ReadMessage` returned: the state after
it, and `true` when the pass ended in `return`. -/
def iteration (unmarshal : Unmarshal) (st : LoopState) (r : ReadResult) : LoopState × Bool :=
  let st : LoopState := { st with reads := st.reads + 1 }
  let closed : Bool :=
    match r.err with
    | some err => IsCloseError err [r.dataCode]
    | none => false
  if closed then
    ({ st.log (.Warn "client: connection closed, stopping listeners...") with
        client := { st.client with socketConnection := none } }, true)
  else
    let st := st.logErr r.err "client: error on read message: %v"
    if r.dataCode = TextMessage then (dispatch unmarshal st r.data, false) else (st, false)

/-- The `for` loop against the answers the transport gives to the successive
`ReadMessage` calls. Every pass starts with `ReadMessage`: on a nil
`socketConnection` that is a nil-pointer panic, and with no answer left the
loop waits in it. -/
def loop (unmarshal : Unmarshal) : LoopState → List ReadResult → LoopState × LoopStatus
  | st, [] =>
    match st.client.socketConnection with
    | none => (st, .panicked)
    | some _ => (st, .reading)
  | st, r :: rest =>
    match st.client.socketConnection with
    | none => (st, .panicked)
    | some _ =>
      match iteration unmarshal st r with
      | (st', true) => (st', .returned)
      | (st', false) => loop unmarshal st' rest

/-- Method `(*Client).listenWSMessages`. -/
def listenWSMessages (unmarshal : Unmarshal) (c : Client) (answers : List ReadResult) :
    LoopState × LoopStatus :=
  if c.events.length = 0 then
    ({ client := c
       logs := [.Warn "client: no events provided, no listeners will be started"]
       calls := []
       reads := 0 }, .returned)
  else
    loop unmarshal { client := c, logs := [], calls := [], reads := 0 } answers

/-! ## Definitions for the statements and the examples -/

/-- The zero value `ClientConfig{}`. -/
def zeroConfig : ClientConfig := { Host := "", Password := "", ClientId := "", Tls := false }

/-- A configuration for the examples. -/
def sampleConfig : ClientConfig :=
  { Host := "127.0.0.1:2333", Password := "youshallnotpass", ClientId := "123456789", Tls := false }

/-- A logger for the examples. -/
def sampleLogger : Logger := { level := 0, colorized := false }

/-- The client `NewClient` builds from `sampleConfig`, `events` and `sampleLogger`. -/
def sampleClient (events : MessageHandlers) : Client :=
  { httpClient := { Timeout := DefaultTimeOut }
    socketConnection := none
    dialer := none
    config := sampleConfig
    logger := sampleLogger
    sessionId := ""
    events := events }

/-- Variable `websocket.ErrBadHandshake`, the error of `DialContext` when the
server answers the handshake with a status other than 101. -/
def ErrBadHandshake : GoError := .library "websocket: bad handshake"

/-- A transport that rejects every handshake with the given status, as
`DialContext` reports it: no connection, the response, and `ErrBadHandshake`. -/
def rejectStatus (status : Int) : DialContext :=
  fun _ _ _ _ => { conn := none, res := some { StatusCode := status }, err := some ErrBadHandshake }

/-- A transport whose every dial fails with the given error and no response. -/
def answerError (err : GoError) : DialContext :=
  fun _ _ _ _ => { conn := none, res := none, err := some err }

/-- The handler call a frame is expected to cause: for a text frame whose
operation tag (the `Operation` the envelope holds after `json.Unmarshal`) is a
key of the registry, one call under that key with the frame's payload; none
for any other frame. -/
def expectedCall (unmarshal : Unmarshal) (events : MessageHandlers) (r : ReadResult) :
    Option Invocation :=
  if r.dataCode = TextMessage ∧
      (events.lookup (unmarshal r.data { Operation := "" }).1.Operation).isSome then
    some { op := (unmarshal r.data { Operation := "" }).1.Operation, data := r.data }
  else none

/-- The handler calls a sequence of frames is expected to cause, in the order
of the frames. -/
def expectedCalls (unmarshal : Unmarshal) (events : MessageHandlers) (frames : List ReadResult) :
    List Invocation :=
  frames.filterMap (expectedCall unmarshal events)

/-- The text payload with the operation `ready`. -/
def readyFrame : Bytes := "\x7b\"op\":\"ready\"\x7d"

/-- The text payload with the operation `unknown-op`. -/
def unknownFrame : Bytes := "\x7b\"op\":\"unknown-op\"\x7d"

/-- A text payload whose key `op` comes twice, first with the string `ready`
and then with the number 1. -/
def clashFrame : Bytes := "\x7b\"op\":\"ready\",\"op\":1\x7d"

/-- A text payload that is not JSON. -/
def brokenFrame : Bytes := "not json"

/-- The results of `json.Unmarshal` into a `RawGenericSocketMessage` on the
four example payloads. `readyFrame` and `unknownFrame` decode; on `clashFrame`
the first `op` is stored and the second gives an `UnmarshalTypeError`; any
other payload stands for `brokenFrame`, a `SyntaxError` that leaves the
envelope untouched. -/
def sampleUnmarshal : Unmarshal := fun data raw =>
  if data = readyFrame then ({ Operation := "ready" }, none)
  else if data = unknownFrame then ({ Operation := "unknown-op" }, none)
  else if data = clashFrame then
    ({ Operation := "ready" },
      some (.library "json: cannot unmarshal number into Go struct field RawGenericSocketMessage.op of type string"))
  else (raw, some (.library "invalid character 'o' in literal null (expecting 'u')"))

/-- The sample client with a connection and the given registry. -/
def connectedClient (events : MessageHandlers) : Client :=
  { sampleClient events with socketConnection := some { id := 1, closeErr := none } }

/-- A handler that fails on its first call and succeeds afterwards. -/
def failsFirst : MessageHandlerFunc := fun before _ =>
  if before.length = 0 then some (.New "handler: not ready") else none

/-- A handler that always succeeds. -/
def succeeds : MessageHandlerFunc := fun _ _ => none

/-- What a peer's normal closure makes `ReadMessage` return: no frame, no
payload and a `*CloseError` with code 1000. -/
def peerClosed : ReadResult :=
  { dataCode := noFrame, data := "", err := some (.CloseError CloseNormalClosure "") }

/-! ## The matcher and the meaning of patterns -/

namespace Regex

/-- One more match, taken first: a remainder of `k + 1` matches from `s` is a
remainder of `k` matches from a remainder of one match from `s`. -/
theorem mem_applyN_succ (f : List Char → List (List Char)) (k : Nat) (s t : List Char) :
    t ∈ applyN f (k + 1) s ↔ ∃ m ∈ f s, t ∈ applyN f k m := by
  induction k generalizing t with
  | zero => simp [applyN]
  | succ k ih =>
    rw [applyN, List.mem_flatMap]
    constructor
    · rintro ⟨x, hx, ht⟩
      obtain ⟨m, hm, hxm⟩ := (ih x).mp hx
      exact ⟨m, hm, by rw [applyN, List.mem_flatMap]; exact ⟨x, hxm, ht⟩⟩
    · rintro ⟨m, hm, ht⟩
      rw [applyN, List.mem_flatMap] at ht
      obtain ⟨x, hxm, ht⟩ := ht
      exact ⟨x, (ih x).mpr ⟨m, hm, hxm⟩, ht⟩

/-- The remainders of `k + j` matches are those of `j` matches from a remainder
of `k` matches. -/
theorem mem_applyN_add (f : List Char → List (List Char)) (k j : Nat) (s t : List Char) :
    t ∈ applyN f (k + j) s ↔ ∃ m ∈ applyN f k s, t ∈ applyN f j m := by
  induction j generalizing t with
  | zero => simp [applyN]
  | succ j ih =>
    rw [← Nat.add_assoc, applyN, List.mem_flatMap]
    constructor
    · rintro ⟨x, hx, ht⟩
      obtain ⟨m, hm, hxm⟩ := (ih x).mp hx
      exact ⟨m, hm, by rw [applyN, List.mem_flatMap]; exact ⟨x, hxm, ht⟩⟩
    · rintro ⟨m, hm, ht⟩
      rw [applyN, List.mem_flatMap] at ht
      obtain ⟨x, hxm, ht⟩ := ht
      exact ⟨x, (ih x).mpr ⟨m, hm, hxm⟩, ht⟩

/-- The remainders `upTo` collects are those of at most `n` matches from a
member of `cur`. -/
theorem mem_upTo (f : List Char → List (List Char)) (n : Nat) (cur : List (List Char))
    (t : List Char) :
    t ∈ upTo f n cur ↔ ∃ j, j ≤ n ∧ ∃ c ∈ cur, t ∈ applyN f j c := by
  induction n generalizing cur with
  | zero =>
    simp only [upTo, Nat.le_zero_eq]
    constructor
    · intro h
      exact ⟨0, rfl, t, h, by simp [applyN]⟩
    · rintro ⟨j, rfl, c, hc, ht⟩
      simp only [applyN, List.mem_singleton] at ht
      rw [ht]; exact hc
  | succ n ih =>
    rw [upTo, List.mem_append, ih]
    constructor
    · rintro (h | ⟨j, hj, c, hc, ht⟩)
      · exact ⟨0, Nat.zero_le _, t, h, by simp [applyN]⟩
      · rw [List.mem_flatMap] at hc
        obtain ⟨c0, hc0, hcc⟩ := hc
        exact ⟨j + 1, Nat.succ_le_succ hj, c0, hc0, (mem_applyN_succ f j c0 t).mpr ⟨c, hcc, ht⟩⟩
    · rintro ⟨j, hj, c, hc, ht⟩
      cases j with
      | zero =>
        simp only [applyN, List.mem_singleton] at ht
        left; rw [ht]; exact hc
      | succ j =>
        right
        obtain ⟨m, hm, htm⟩ := (mem_applyN_succ f j c t).mp ht
        exact ⟨j, Nat.le_of_succ_le_succ hj, m, List.mem_flatMap.mpr ⟨c, hc, hm⟩, htm⟩

/-- A counted repetition collects the remainders of `lo` to `lo + n` matches. -/
theorem mem_upTo_applyN (f : List Char → List (List Char)) (n lo : Nat) (s t : List Char) :
    t ∈ upTo f n (applyN f lo s) ↔ ∃ j, j ≤ n ∧ t ∈ applyN f (lo + j) s := by
  rw [mem_upTo]
  constructor
  · rintro ⟨j, hj, c, hc, ht⟩
    exact ⟨j, hj, (mem_applyN_add f lo j s t).mpr ⟨c, hc, ht⟩⟩
  · rintro ⟨j, hj, ht⟩
    obtain ⟨c, hc, ht⟩ := (mem_applyN_add f lo j s t).mp ht
    exact ⟨j, hj, c, hc, ht⟩

/-- Repeated matches leave a suffix of the text when one match does. -/
theorem applyN_suffix (f : List Char → List (List Char))
    (hf : ∀ s t, t ∈ f s → t <:+ s) (k : Nat) :
    ∀ s t, t ∈ applyN f k s → t <:+ s := by
  induction k with
  | zero =>
    intro s t h
    simp only [applyN, List.mem_singleton] at h
    subst h
    exact List.suffix_refl _
  | succ k ih =>
    intro s t h
    obtain ⟨m, hm, ht⟩ := (mem_applyN_succ f k s t).mp h
    exact (ih m t ht).trans (hf s m hm)

/-- Every remainder the matcher returns is a suffix of the text. -/
theorem matchFrom_suffix (r : Regex) : ∀ s t, t ∈ matchFrom r s → t <:+ s := by
  induction r with
  | cls rs =>
    intro s t h
    cases s with
    | nil => simp [matchFrom] at h
    | cons c cs =>
      simp only [matchFrom] at h
      split_ifs at h
      · simp only [List.mem_singleton] at h
        rw [h]
        exact List.suffix_cons c cs
      · simp at h
  | seq a b iha ihb =>
    intro s t h
    simp only [matchFrom, List.mem_flatMap] at h
    obtain ⟨m, hm, ht⟩ := h
    exact (ihb m t ht).trans (iha s m hm)
  | rep a lo hi iha =>
    intro s t h
    cases hi with
    | none =>
      simp only [matchFrom] at h
      obtain ⟨j, _, ht⟩ := (mem_upTo_applyN _ _ lo s t).mp h
      exact applyN_suffix _ iha _ s t ht
    | some hi =>
      simp only [matchFrom] at h
      obtain ⟨j, _, ht⟩ := (mem_upTo_applyN _ _ lo s t).mp h
      exact applyN_suffix _ iha _ s t ht

/-- At least `lo` matches of `a` in a row are a match of `a{lo,}`. -/
theorem Matches_rep_unbounded (a : Regex) (f : List Char → List (List Char))
    (hf : ∀ s t, t ∈ f s → Matches a s t) (k : Nat) :
    ∀ lo s t, t ∈ applyN f k s → lo ≤ k → Matches (rep a lo none) s t := by
  induction k with
  | zero =>
    intro lo s t h hlo
    simp only [applyN, List.mem_singleton] at h
    have : lo = 0 := Nat.le_zero.mp hlo
    subst this
    rw [h]
    exact Matches.done a none s
  | succ k ih =>
    intro lo s t h hlo
    obtain ⟨m, hm, ht⟩ := (mem_applyN_succ f k s t).mp h
    exact Matches.more a lo s m t (hf s m hm) (ih (lo - 1) m t ht (by omega))

/-- Between `lo` and `hi` matches of `a` in a row are a match of `a{lo,hi}`. -/
theorem Matches_rep_bounded (a : Regex) (f : List Char → List (List Char))
    (hf : ∀ s t, t ∈ f s → Matches a s t) (k : Nat) :
    ∀ lo hi s t, t ∈ applyN f k s → lo ≤ k → k ≤ hi → Matches (rep a lo (some hi)) s t := by
  induction k with
  | zero =>
    intro lo hi s t h hlo _
    simp only [applyN, List.mem_singleton] at h
    have : lo = 0 := Nat.le_zero.mp hlo
    subst this
    rw [h]
    exact Matches.done a (some hi) s
  | succ k ih =>
    intro lo hi s t h hlo hhi
    obtain ⟨m, hm, ht⟩ := (mem_applyN_succ f k s t).mp h
    cases hi with
    | zero => omega
    | succ hi =>
      exact Matches.moreBounded a lo hi s m t (hf s m hm)
        (ih (lo - 1) hi m t ht (by omega) (by omega))

/-- Soundness of the matcher: every remainder it returns for a well-formed
pattern is what a match of the pattern leaves. -/
theorem matchFrom_sound (r : Regex) : WF r = true → ∀ s t, t ∈ matchFrom r s → Matches r s t := by
  induction r with
  | cls rs =>
    intro _ s t h
    cases s with
    | nil => simp [matchFrom] at h
    | cons c cs =>
      simp only [matchFrom] at h
      split_ifs at h with hc
      · simp only [List.mem_singleton] at h
        rw [h]
        exact Matches.cls rs c cs hc
      · simp at h
  | seq a b iha ihb =>
    intro hwf s t h
    simp only [WF, Bool.and_eq_true] at hwf
    simp only [matchFrom, List.mem_flatMap] at h
    obtain ⟨m, hm, ht⟩ := h
    exact Matches.seq a b s m t (iha hwf.1 s m hm) (ihb hwf.2 m t ht)
  | rep a lo hi iha =>
    intro hwf s t h
    cases hi with
    | none =>
      simp only [WF] at hwf
      simp only [matchFrom] at h
      obtain ⟨j, _, ht⟩ := (mem_upTo_applyN _ _ lo s t).mp h
      exact Matches_rep_unbounded a _ (iha hwf) _ lo s t ht (Nat.le_add_right lo j)
    | some hi =>
      simp only [WF, Bool.and_eq_true, decide_eq_true_eq] at hwf
      simp only [matchFrom] at h
      obtain ⟨j, hj, ht⟩ := (mem_upTo_applyN _ _ lo s t).mp h
      exact Matches_rep_bounded a _ (iha hwf.1) _ lo hi s t ht (Nat.le_add_right lo j) (by omega)

/-- Completeness of the matcher: it returns what any match of a well-formed
pattern leaves; the rounds allowed to an unbounded repetition are enough. -/
theorem matchFrom_complete (r : Regex) (s t : List Char) (h : Matches r s t) :
    WF r = true → t ∈ matchFrom r s := by
  induction h with
  | cls rs c cs hc =>
    intro _
    simp [matchFrom, hc]
  | seq a b s t u _ _ iha ihb =>
    intro hwf
    simp only [WF, Bool.and_eq_true] at hwf
    simp only [matchFrom, List.mem_flatMap]
    exact ⟨t, iha hwf.1, ihb hwf.2⟩
  | done a hi s =>
    intro _
    cases hi with
    | none =>
      simp only [matchFrom]
      exact (mem_upTo_applyN _ _ 0 s s).mpr ⟨0, Nat.zero_le _, by simp [applyN]⟩
    | some hi =>
      simp only [matchFrom]
      exact (mem_upTo_applyN _ _ 0 s s).mpr ⟨0, Nat.zero_le _, by simp [applyN]⟩
  | more a lo s t u hst _ iha ihr =>
    intro hwf
    simp only [WF] at hwf
    have hts : t <:+ s := matchFrom_suffix a s t (iha hwf)
    have hr := ihr (by simpa [WF] using hwf)
    simp only [matchFrom] at hr ⊢
    obtain ⟨j, hj, hu⟩ := (mem_upTo_applyN _ _ (lo - 1) t u).mp hr
    have hlen : t.length ≤ s.length := hts.length_le
    cases lo with
    | succ lo =>
      refine (mem_upTo_applyN _ _ (lo + 1) s u).mpr ⟨j, by omega, ?_⟩
      have : lo + 1 + j = (lo + 1 - 1 + j) + 1 := by omega
      rw [this]
      exact (mem_applyN_succ _ _ s u).mpr ⟨t, iha hwf, hu⟩
    | zero =>
      simp only [Nat.zero_sub, Nat.zero_add] at hu hj
      by_cases hlt : t.length < s.length
      · refine (mem_upTo_applyN _ _ 0 s u).mpr ⟨j + 1, by omega, ?_⟩
        rw [Nat.zero_add]
        exact (mem_applyN_succ _ _ s u).mpr ⟨t, iha hwf, hu⟩
      · have hts' : t = s := hts.eq_of_length (by omega)
        subst hts'
        exact (mem_upTo_applyN _ _ 0 t u).mpr ⟨j, hj, by rw [Nat.zero_add]; exact hu⟩
  | moreBounded a lo hi s t u hst _ iha ihr =>
    intro hwf
    simp only [WF, Bool.and_eq_true, decide_eq_true_eq] at hwf
    have hr := ihr (by simp only [WF, Bool.and_eq_true, decide_eq_true_eq]; exact ⟨hwf.1, by omega⟩)
    simp only [matchFrom] at hr ⊢
    obtain ⟨j, hj, hu⟩ := (mem_upTo_applyN _ _ (lo - 1) t u).mp hr
    cases lo with
    | succ lo =>
      refine (mem_upTo_applyN _ _ (lo + 1) s u).mpr ⟨j, by omega, ?_⟩
      have : lo + 1 + j = (lo + 1 - 1 + j) + 1 := by omega
      rw [this]
      exact (mem_applyN_succ _ _ s u).mpr ⟨t, iha hwf.1, hu⟩
    | zero =>
      simp only [Nat.zero_sub, Nat.zero_add] at hu hj
      refine (mem_upTo_applyN _ _ 0 s u).mpr ⟨j + 1, by omega, ?_⟩
      rw [Nat.zero_add]
      exact (mem_applyN_succ _ _ s u).mpr ⟨t, iha hwf.1, hu⟩

/-- For a well-formed pattern `MatchString` holds exactly when the pattern
matches the whole text. -/
theorem MatchString_iff (r : Regex) (hwf : WF r = true) (s : String) :
    MatchString r s = true ↔ Matches r s.data [] := by
  unfold MatchString
  rw [List.any_eq_true]
  constructor
  · rintro ⟨t, ht, hnil⟩
    have : t = [] := List.isEmpty_iff.mp hnil
    subst this
    exact matchFrom_sound r hwf s.data [] ht
  · intro h
    exact ⟨[], matchFrom_complete r s.data [] h hwf, rfl⟩

end Regex

/-- Both patterns of the package are well formed. -/
theorem regex_WF : regexDomain.WF = true ∧ regexIp.WF = true := by
  decide

/-! ## Configuration validation -/

/-- Unfolding of `NewClient` on a non-nil configuration, as one chain of tests. -/
theorem NewClient_some (cfg : ClientConfig) (events : MessageHandlers) (log : Option Logger) :
    NewClient (some cfg) events log =
      if cfg = zeroConfig then .error .ErrEmptyConfig
      else if regexDomain.MatchString cfg.Host = false ∧ regexIp.MatchString cfg.Host = false then
        .error .ErrHostInvalid
      else if cfg.ClientId = "" then .error .ErrEmptyClientId
      else match log with
        | none => .error .ErrNilLogger
        | some l =>
          .ok { httpClient := { Timeout := DefaultTimeOut }
                socketConnection := none
                dialer := none
                config := cfg
                logger := l
                sessionId := ""
                events := events } := by
  unfold NewClient zeroConfig
  by_cases h0 : cfg = { Host := "", Password := "", ClientId := "", Tls := false }
  · simp [h0]
  · cases hd : regexDomain.MatchString cfg.Host <;> cases hi : regexIp.MatchString cfg.Host <;>
      simp [h0, hd, hi]

/-- The empty host matches neither pattern. -/
theorem empty_host_invalid :
    regexDomain.MatchString "" = false ∧ regexIp.MatchString "" = false := by
  decide

/-- The matcher on some hosts: a domain needs a dot and a final label of two
letters or more, a label neither starts nor ends with a hyphen, a port has one
to five digits, and the numbers of a dotted quad are not range-checked. -/
theorem MatchString_examples :
    regexDomain.MatchString "sub.example.org" = true ∧
    regexDomain.MatchString "a-b.example.com:80" = true ∧
    regexDomain.MatchString "localhost" = false ∧
    regexDomain.MatchString "localhost:2333" = false ∧
    regexDomain.MatchString "example.c" = false ∧
    regexDomain.MatchString "-a.com" = false ∧
    regexDomain.MatchString "a-.com" = false ∧
    regexDomain.MatchString "example.com:" = false ∧
    regexDomain.MatchString "example.com:123456" = false ∧
    regexDomain.MatchString "127.0.0.1" = false ∧
    regexIp.MatchString "999.999.999.999" = true ∧
    regexIp.MatchString "1.2.3" = false ∧
    regexIp.MatchString "1.2.3.4.5" = false ∧
    regexIp.MatchString "1234.1.1.1" = false ∧
    regexIp.MatchString "example.com" = false := by
  decide

/-- A configuration whose host matches one of the patterns is not the zero value. -/
theorem valid_host_nonzero (cfg : ClientConfig)
    (h : regexDomain.MatchString cfg.Host = true ∨ regexIp.MatchString cfg.Host = true) :
    cfg ≠ zeroConfig := by
  intro hz
  have hd := empty_host_invalid.1
  have hi := empty_host_invalid.2
  rw [hz] at h
  simp only [zeroConfig] at h
  rcases h with h | h
  · rw [hd] at h; exact Bool.noConfusion h
  · rw [hi] at h; exact Bool.noConfusion h

/-- C9: `NewClient` fails with `ErrEmptyConfig` exactly when the configuration
is nil or equal to the zero value, whatever the handlers and the logger; in
that case it returns no client, and a configuration with any field set is
never rejected with `ErrEmptyConfig`. -/
theorem NewClient_ErrEmptyConfig_iff (config : Option ClientConfig) (events : MessageHandlers)
    (log : Option Logger) :
    NewClient config events log = .error .ErrEmptyConfig ↔
      (config = none ∨ config = some zeroConfig) := by
  cases config with
  | none => simp [NewClient]
  | some cfg =>
    rw [NewClient_some]
    by_cases h0 : cfg = zeroConfig
    · simp [h0]
    · simp only [h0, if_false, false_or, Option.some.injEq, iff_false, reduceCtorEq]
      split_ifs
      · simp
      · simp
      · cases log <;> simp

/-- C2: for every non-nil, non-zero configuration whose `Host` matches neither
`regexDomain` nor `regexIp`, `NewClient` returns no client and fails with
`ErrHostInvalid`, whatever the `ClientId`, the `Password`, the handlers and the
logger. -/
theorem NewClient_ErrHostInvalid (cfg : ClientConfig) (events : MessageHandlers)
    (log : Option Logger) (hnz : cfg ≠ zeroConfig)
    (hd : regexDomain.MatchString cfg.Host = false)
    (hi : regexIp.MatchString cfg.Host = false) :
    NewClient (some cfg) events log = .error .ErrHostInvalid := by
  rw [NewClient_some]
  simp [hnz, hd, hi]

/-- C2 at the configuration of the test: host `invalid-host`, a client id, a
password and a nil logger. -/
theorem NewClient_ErrHostInvalid_witness :
    NewClient (some { Host := "invalid-host", Password := "TestClientWithInvalidHost",
                      ClientId := "TestClientId", Tls := false }) [] none
      = .error .ErrHostInvalid :=
  NewClient_ErrHostInvalid _ [] none (by decide) (by decide) (by decide)

/-- C10: for every configuration that passes the validation (non-zero, `Host`
matching `regexDomain` or `regexIp`, non-empty `ClientId`) and every handler
registry, `NewClient` with a nil logger returns no client and fails with
`ErrNilLogger`. -/
theorem NewClient_ErrNilLogger (cfg : ClientConfig) (events : MessageHandlers)
    (hnz : cfg ≠ zeroConfig)
    (hhost : regexDomain.MatchString cfg.Host = true ∨ regexIp.MatchString cfg.Host = true)
    (hid : cfg.ClientId ≠ "") :
    NewClient (some cfg) events none = .error .ErrNilLogger := by
  rw [NewClient_some]
  have hv : ¬ (regexDomain.MatchString cfg.Host = false ∧ regexIp.MatchString cfg.Host = false) := by
    rintro ⟨hd, hi⟩
    rcases hhost with h | h
    · rw [hd] at h; exact Bool.noConfusion h
    · rw [hi] at h; exact Bool.noConfusion h
  simp only [hnz, hv, hid, if_false]

/-- C10 at the configuration of the test: host `127.0.0.1`, a client id and a
password, no handlers, nil logger. -/
theorem NewClient_ErrNilLogger_witness :
    NewClient (some { Host := "127.0.0.1", Password := "TestClientWithNilLogger",
                      ClientId := "TestClientWithNilLogger", Tls := false }) [] none
      = .error .ErrNilLogger :=
  NewClient_ErrNilLogger _ [] (by decide) (Or.inr (by decide)) (by decide)

/-- C3: each of the hosts `127.0.0.1`, `example.com`, `example.com:2333` and
`10.0.0.5:443` matches `regexDomain` or `regexIp`, and for a configuration with
that host, any non-empty `ClientId` and a non-nil logger, `NewClient` returns a
client (holding that configuration, the handlers and the logger, and no
connection) and no error. -/
theorem NewClient_ok_sample_hosts (host password clientId : String) (tls : Bool)
    (events : MessageHandlers) (l : Logger)
    (hhost : host ∈ ["127.0.0.1", "example.com", "example.com:2333", "10.0.0.5:443"])
    (hid : clientId ≠ "") :
    (regexDomain.MatchString host = true ∨ regexIp.MatchString host = true) ∧
    NewClient (some { Host := host, Password := password, ClientId := clientId, Tls := tls })
        events (some l)
      = .ok { httpClient := { Timeout := DefaultTimeOut }
              socketConnection := none
              dialer := none
              config := { Host := host, Password := password, ClientId := clientId, Tls := tls }
              logger := l
              sessionId := ""
              events := events } := by
  have hm : regexDomain.MatchString host = true ∨ regexIp.MatchString host = true := by
    simp only [List.mem_cons, List.mem_singleton, List.not_mem_nil, or_false] at hhost
    rcases hhost with h | h | h | h <;> subst h
    · exact Or.inr (by decide)
    · exact Or.inl (by decide)
    · exact Or.inl (by decide)
    · exact Or.inr (by decide)
  refine ⟨hm, ?_⟩
  rw [NewClient_some]
  have hnz : ({ Host := host, Password := password, ClientId := clientId, Tls := tls } : ClientConfig)
      ≠ zeroConfig := valid_host_nonzero _ hm
  have hv : ¬ (regexDomain.MatchString host = false ∧ regexIp.MatchString host = false) := by
    rintro ⟨hd, hi⟩
    rcases hm with h | h
    · rw [hd] at h; exact Bool.noConfusion h
    · rw [hi] at h; exact Bool.noConfusion h
  simp only [hnz, hv, hid, if_false]

/-- C3 at host `example.com:2333` with TLS on and one handler registered. -/
theorem NewClient_ok_sample_hosts_witness :
    (regexDomain.MatchString "example.com:2333" = true ∨
      regexIp.MatchString "example.com:2333" = true) ∧
    NewClient (some { Host := "example.com:2333", Password := "youshallnotpass",
                      ClientId := "123456789", Tls := true })
        [(MessageReady, fun _ _ => none)] (some { level := 0, colorized := false })
      = .ok { httpClient := { Timeout := DefaultTimeOut }
              socketConnection := none
              dialer := none
              config := { Host := "example.com:2333", Password := "youshallnotpass",
                          ClientId := "123456789", Tls := true }
              logger := { level := 0, colorized := false }
              sessionId := ""
              events := [(MessageReady, fun _ _ => none)] } :=
  NewClient_ok_sample_hosts "example.com:2333" "youshallnotpass" "123456789" true
    [(MessageReady, fun _ _ => none)] { level := 0, colorized := false } (by decide) (by decide)

/-- C1, as stated, fails: the configuration with host `invalid-host`, a
password and an empty `ClientId` is non-nil and non-zero, and `NewClient`
rejects it with `ErrHostInvalid`, which is neither `ErrEmptyClientId` nor
`ErrEmptyConfig`; with host `127.0.0.1` and the same other fields the error is
`ErrEmptyClientId`, so the validity of the host changes the error. -/
theorem NewClient_empty_id_invalid_host :
    ({ Host := "invalid-host", Password := "secret", ClientId := "", Tls := false } : ClientConfig)
        ≠ zeroConfig ∧
    NewClient (some { Host := "invalid-host", Password := "secret", ClientId := "", Tls := false })
        [] none = .error .ErrHostInvalid ∧
    NewClient (some { Host := "invalid-host", Password := "secret", ClientId := "", Tls := false })
        [] none ≠ .error .ErrEmptyClientId ∧
    NewClient (some { Host := "invalid-host", Password := "secret", ClientId := "", Tls := false })
        [] none ≠ .error .ErrEmptyConfig ∧
    NewClient (some { Host := "127.0.0.1", Password := "secret", ClientId := "", Tls := false })
        [] none = .error .ErrEmptyClientId := by
  have h1 : NewClient (some ⟨"invalid-host", "secret", "", false⟩) [] none
      = .error .ErrHostInvalid := by
    rw [NewClient_some]
    rw [if_neg (by decide), if_pos (by decide)]
  have h2 : NewClient (some ⟨"127.0.0.1", "secret", "", false⟩) [] none
      = .error .ErrEmptyClientId := by
    rw [NewClient_some]
    rw [if_neg (by decide), if_neg (by decide), if_pos rfl]
  refine ⟨by decide, h1, ?_, ?_, h2⟩
  · rw [h1]; simp
  · rw [h1]; simp

/-- C1, amended: for every non-nil configuration whose `ClientId` is empty,
whatever the password, the TLS flag, the handlers and the logger, `NewClient`
returns no client and fails: with `ErrEmptyConfig` when the configuration is
the zero value, with `ErrHostInvalid` when it is not and the host matches
neither pattern, and with `ErrEmptyClientId` when the host matches one. -/
theorem NewClient_empty_ClientId (cfg : ClientConfig) (events : MessageHandlers)
    (log : Option Logger) (hid : cfg.ClientId = "") :
    (cfg = zeroConfig → NewClient (some cfg) events log = .error .ErrEmptyConfig) ∧
    (cfg ≠ zeroConfig → regexDomain.MatchString cfg.Host = false →
      regexIp.MatchString cfg.Host = false →
      NewClient (some cfg) events log = .error .ErrHostInvalid) ∧
    (regexDomain.MatchString cfg.Host = true ∨ regexIp.MatchString cfg.Host = true →
      NewClient (some cfg) events log = .error .ErrEmptyClientId) := by
  refine ⟨?_, ?_, ?_⟩
  · intro h0
    rw [NewClient_some, if_pos h0]
  · intro h0 hd hi
    rw [NewClient_some, if_neg h0, if_pos ⟨hd, hi⟩]
  · intro hm
    have hv : ¬ (regexDomain.MatchString cfg.Host = false ∧
        regexIp.MatchString cfg.Host = false) := by
      rintro ⟨hd, hi⟩
      rcases hm with h | h
      · rw [hd] at h; exact Bool.noConfusion h
      · rw [hi] at h; exact Bool.noConfusion h
    rw [NewClient_some, if_neg (valid_host_nonzero cfg hm), if_neg hv, if_pos hid]

/-- C1, amended, at the configuration of the test: host `127.0.0.1`, a password
and an empty `ClientId` give `ErrEmptyClientId`. -/
theorem NewClient_empty_ClientId_witness :
    NewClient (some { Host := "127.0.0.1", Password := "TestClientWithEmptyClientId",
                      ClientId := "", Tls := false }) [] none
      = .error .ErrEmptyClientId :=
  (NewClient_empty_ClientId
    { Host := "127.0.0.1", Password := "TestClientWithEmptyClientId", ClientId := "", Tls := false }
    [] none rfl).2.2 (Or.inr (by decide))

/-! ## Connecting and disconnecting -/

/-- The sample client is what `NewClient` returns for the sample configuration. -/
theorem NewClient_sample (events : MessageHandlers) :
    NewClient (some sampleConfig) events (some sampleLogger) = .ok (sampleClient events) := by
  rw [NewClient_some]
  rw [if_neg (by decide), if_neg (by decide), if_neg (by decide)]
  rfl

/-- What `ConnectWS` does with a dial error: it returns it as it is. -/
theorem ConnectWS_dial_error (dial : DialContext) (c : Client) (ctx : Context) (e : GoError)
    (h : (handshake dial c ctx).err = some e) :
    ConnectWS dial c ctx =
      { client := { c with dialer := some (c.dialer.getD defaultDialer) }
        ret := .value (some e)
        listening := false } := by
  simp [ConnectWS, h]

/-- What `ConnectWS` does with a nil error and a 403 response. -/
theorem ConnectWS_403 (dial : DialContext) (c : Client) (ctx : Context)
    (herr : (handshake dial c ctx).err = none)
    (hres : (handshake dial c ctx).res = some { StatusCode := 403 }) :
    ConnectWS dial c ctx =
      { client := { c with dialer := some (c.dialer.getD defaultDialer) }
        ret := .value (some (.New "client: invalid password"))
        listening := false } := by
  simp [ConnectWS, herr, hres]

/-- What `ConnectWS` does with a nil error and a 404 response. -/
theorem ConnectWS_404 (dial : DialContext) (c : Client) (ctx : Context)
    (herr : (handshake dial c ctx).err = none)
    (hres : (handshake dial c ctx).res = some { StatusCode := 404 }) :
    ConnectWS dial c ctx =
      { client := { c with dialer := some (c.dialer.getD defaultDialer) }
        ret := .value (some (.New "client: invalid host"))
        listening := false } := by
  simp [ConnectWS, herr, hres]

/-- C7 fails on the code: when the server rejects the handshake with status
403, `DialContext` returns the response together with `ErrBadHandshake`, and
`ConnectWS` returns that error from its `err != nil` test, not
`client: invalid password`; with status 404 it returns `ErrBadHandshake` too,
neither `client: invalid host` nor `ErrHostInvalid`. The tests of the status
are not reached. No transport handle is stored and no loop is started. -/
theorem ConnectWS_rejected_ErrBadHandshake :
    (ConnectWS (rejectStatus 403) (sampleClient []) { deadline := none, cancelled := false }).ret
        = .value (some ErrBadHandshake) ∧
    (ConnectWS (rejectStatus 403) (sampleClient []) { deadline := none, cancelled := false }).ret
        ≠ .value (some (.New "client: invalid password")) ∧
    (ConnectWS (rejectStatus 404) (sampleClient []) { deadline := none, cancelled := false }).ret
        = .value (some ErrBadHandshake) ∧
    (ConnectWS (rejectStatus 404) (sampleClient []) { deadline := none, cancelled := false }).ret
        ≠ .value (some (.New "client: invalid host")) ∧
    (ConnectWS (rejectStatus 404) (sampleClient []) { deadline := none, cancelled := false }).ret
        ≠ .value (some .ErrHostInvalid) ∧
    (ConnectWS (rejectStatus 403) (sampleClient [])
        { deadline := none, cancelled := false }).client.socketConnection = none ∧
    (ConnectWS (rejectStatus 403) (sampleClient [])
        { deadline := none, cancelled := false }).listening = false ∧
    (ConnectWS (rejectStatus 404) (sampleClient [])
        { deadline := none, cancelled := false }).client.socketConnection = none ∧
    (ConnectWS (rejectStatus 404) (sampleClient [])
        { deadline := none, cancelled := false }).listening = false := by
  decide

/-- C8: for every client freshly returned by `NewClient` and every failing
connect outcome (a dial error, or a nil error with a 403 or a 404 response),
`ConnectWS` returns an error, starts no loop and leaves the client without a
transport handle, so `Disconnect` returns `ErrConnectionNotEstablished`, as it
does on the client before the call. -/
theorem ConnectWS_failure_disconnected (config : Option ClientConfig) (events : MessageHandlers)
    (log : Option Logger) (c : Client) (dial : DialContext) (ctx : Context)
    (hnew : NewClient config events log = .ok c)
    (hfail : (handshake dial c ctx).err ≠ none ∨
      ((handshake dial c ctx).err = none ∧
        ((handshake dial c ctx).res = some { StatusCode := 403 } ∨
         (handshake dial c ctx).res = some { StatusCode := 404 }))) :
    (∃ e, (ConnectWS dial c ctx).ret = .value (some e)) ∧
    (ConnectWS dial c ctx).listening = false ∧
    (ConnectWS dial c ctx).client.socketConnection = none ∧
    Disconnect (ConnectWS dial c ctx).client = some .ErrConnectionNotEstablished ∧
    Disconnect c = some .ErrConnectionNotEstablished := by
  have hsock : c.socketConnection = none := by
    cases config with
    | none => simp [NewClient] at hnew
    | some cfg =>
      rw [NewClient_some] at hnew
      split_ifs at hnew
      cases log with
      | none => simp at hnew
      | some l =>
        simp only [Except.ok.injEq] at hnew
        rw [← hnew]
  have key : ∀ e, ConnectWS dial c ctx =
      { client := { c with dialer := some (c.dialer.getD defaultDialer) }
        ret := .value (some e)
        listening := false } →
      (∃ e, (ConnectWS dial c ctx).ret = .value (some e)) ∧
      (ConnectWS dial c ctx).listening = false ∧
      (ConnectWS dial c ctx).client.socketConnection = none ∧
      Disconnect (ConnectWS dial c ctx).client = some .ErrConnectionNotEstablished ∧
      Disconnect c = some .ErrConnectionNotEstablished := by
    intro e he
    rw [he]
    refine ⟨⟨e, rfl⟩, rfl, hsock, ?_, ?_⟩
    · simp [Disconnect, hsock]
    · simp [Disconnect, hsock]
  rcases hfail with h | ⟨herr, h | h⟩
  · cases he : (handshake dial c ctx).err with
    | none => exact absurd he h
    | some e => exact key e (ConnectWS_dial_error dial c ctx e he)
  · exact key _ (ConnectWS_403 dial c ctx herr h)
  · exact key _ (ConnectWS_404 dial c ctx herr h)

/-- C8 at the sample client and a transport whose dial is refused: the error
is returned and `Disconnect` answers `ErrConnectionNotEstablished`. -/
theorem ConnectWS_failure_disconnected_witness :
    (∃ e, (ConnectWS (answerError (.library "connect: connection refused")) (sampleClient [])
        { deadline := none, cancelled := false }).ret = .value (some e)) ∧
    (ConnectWS (answerError (.library "connect: connection refused")) (sampleClient [])
        { deadline := none, cancelled := false }).listening = false ∧
    (ConnectWS (answerError (.library "connect: connection refused")) (sampleClient [])
        { deadline := none, cancelled := false }).client.socketConnection = none ∧
    Disconnect (ConnectWS (answerError (.library "connect: connection refused")) (sampleClient [])
        { deadline := none, cancelled := false }).client = some .ErrConnectionNotEstablished ∧
    Disconnect (sampleClient []) = some .ErrConnectionNotEstablished :=
  ConnectWS_failure_disconnected (some sampleConfig) [] (some sampleLogger) (sampleClient [])
    (answerError (.library "connect: connection refused"))
    { deadline := none, cancelled := false } (NewClient_sample [])
    (Or.inl (by simp [handshake, answerError]))

/-! ## Dispatch -/

/-- Logging changes the log only. -/
theorem LoopState.log_fields (st : LoopState) (l : LogCall) :
    (st.log l).client = st.client ∧ (st.log l).calls = st.calls ∧
    (st.log l).reads = st.reads :=
  ⟨rfl, rfl, rfl⟩

/-- Logging an error, or none, changes the log only. -/
theorem LoopState.logErr_fields (st : LoopState) (err : Option GoError) (format : String) :
    (st.logErr err format).client = st.client ∧ (st.logErr err format).calls = st.calls ∧
    (st.logErr err format).reads = st.reads := by
  cases err <;> exact ⟨rfl, rfl, rfl⟩

/-- Dispatching a payload leaves the client as it is. -/
theorem dispatch_client (unmarshal : Unmarshal) (st : LoopState) (data : Bytes) :
    (dispatch unmarshal st data).client = st.client := by
  unfold dispatch
  simp only
  split
  · split <;> exact (LoopState.logErr_fields st _ _).1
  · exact (LoopState.logErr_fields st _ _).1

/-- Dispatching a payload makes no `ReadMessage` call. -/
theorem dispatch_reads (unmarshal : Unmarshal) (st : LoopState) (data : Bytes) :
    (dispatch unmarshal st data).reads = st.reads := by
  unfold dispatch
  simp only
  split
  · split <;> exact (LoopState.logErr_fields st _ _).2.2
  · exact (LoopState.logErr_fields st _ _).2.2

/-- Dispatching a payload calls the handler registered under the operation the
envelope holds after `json.Unmarshal`, whether or not the decoding failed and
whatever the handler returns, and no handler when that key is absent. -/
theorem dispatch_calls (unmarshal : Unmarshal) (st : LoopState) (data : Bytes) :
    (dispatch unmarshal st data).calls =
      st.calls ++
        (if (st.client.events.lookup (unmarshal data { Operation := "" }).1.Operation).isSome then
          [{ op := (unmarshal data { Operation := "" }).1.Operation, data := data }]
        else []) := by
  have hc := (LoopState.logErr_fields st (unmarshal data { Operation := "" }).2
    "client: error on unmarshal message: %v").1
  have hk := (LoopState.logErr_fields st (unmarshal data { Operation := "" }).2
    "client: error on unmarshal message: %v").2.1
  unfold dispatch
  simp only
  rw [hc]
  cases hl : List.lookup (unmarshal data { Operation := "" }).1.Operation st.client.events with
  | none =>
    simp only [Option.isSome_none, Bool.false_eq_true, if_false, List.append_nil]
    exact hk
  | some handler =>
    simp only [Option.isSome_some, if_true]
    split <;> exact congrArg (· ++ _) hk

/-- One pass of the loop on a successful read: it does not return, keeps the
client, counts one read and makes exactly the expected call. -/
theorem iteration_ok (unmarshal : Unmarshal) (st : LoopState) (r : ReadResult)
    (h : r.err = none) :
    (iteration unmarshal st r).2 = false ∧
    (iteration unmarshal st r).1.client = st.client ∧
    (iteration unmarshal st r).1.reads = st.reads + 1 ∧
    (iteration unmarshal st r).1.calls =
      st.calls ++ (expectedCall unmarshal st.client.events r).toList := by
  unfold iteration expectedCall
  simp only [h, LoopState.logErr]
  by_cases ht : r.dataCode = TextMessage
  · simp only [ht, if_true, Bool.false_eq_true, if_false, true_and, dispatch_client,
      dispatch_reads, dispatch_calls]
    split_ifs <;> simp
  · simp [ht]

/-- The loop on successful reads, from any state with a connection: it makes
the expected calls after those already made, reads every frame, keeps the
client and ends waiting in `ReadMessage`. -/
theorem loop_ok (unmarshal : Unmarshal) (frames : List ReadResult) :
    ∀ (st : LoopState) (conn : Conn), st.client.socketConnection = some conn →
      (∀ r ∈ frames, r.err = none) →
      (loop unmarshal st frames).1.calls =
          st.calls ++ expectedCalls unmarshal st.client.events frames ∧
      (loop unmarshal st frames).1.reads = st.reads + frames.length ∧
      (loop unmarshal st frames).1.client = st.client ∧
      (loop unmarshal st frames).2 = .reading := by
  induction frames with
  | nil =>
    intro st conn hconn _
    simp [loop, expectedCalls, hconn]
  | cons r rest ih =>
    intro st conn hconn hok
    obtain ⟨h2, hc, hr, hcalls⟩ := iteration_ok unmarshal st r (hok r (List.mem_cons_self r rest))
    have hrest : ∀ x ∈ rest, x.err = none := fun x hx => hok x (List.mem_cons_of_mem r hx)
    have hstep : loop unmarshal st (r :: rest) = loop unmarshal (iteration unmarshal st r).1 rest := by
      rw [loop, hconn]
      cases hi : iteration unmarshal st r with
      | mk st' b =>
        rw [hi] at h2
        simp only at h2
        subst h2
        rfl
    have hconn' : (iteration unmarshal st r).1.client.socketConnection = some conn := by
      rw [hc, hconn]
    obtain ⟨i1, i2, i3, i4⟩ := ih (iteration unmarshal st r).1 conn hconn' hrest
    rw [hstep]
    refine ⟨?_, ?_, ?_, i4⟩
    · rw [i1, hcalls, hc, List.append_assoc]
      congr 1
      unfold expectedCalls
      rw [List.filterMap_cons]
      cases expectedCall unmarshal st.client.events r <;> rfl
    · rw [i2, hr, List.length_cons]
      omega
    · rw [i3, hc]

/-! ## The loop on sequences of frames -/

/-- On a client without a connection the loop panics at its first
`ReadMessage`, whatever the transport would answer. -/
theorem loop_nil_connection (unmarshal : Unmarshal) (st : LoopState)
    (answers : List ReadResult) (h : st.client.socketConnection = none) :
    loop unmarshal st answers = (st, .panicked) := by
  cases answers <;> simp [loop, h]

/-- The pass of the loop on a close error returns exactly when the close code
equals the message type returned with it. -/
theorem iteration_CloseError (unmarshal : Unmarshal) (st : LoopState) (r : ReadResult)
    (code : Int) (text : String) (h : r.err = some (.CloseError code text)) :
    (iteration unmarshal st r).2 = true ↔ code = r.dataCode := by
  unfold iteration
  simp only [h, IsCloseError]
  by_cases hc : code = r.dataCode
  · simp [hc]
  · have hc' : ¬ r.dataCode = code := fun h => hc h.symm
    simp only [List.contains_cons, List.contains_nil, Bool.or_false, beq_iff_eq, hc, hc',
      if_false, iff_false]
    split_ifs <;> simp

/-- The pass of the loop returns only on a close error whose code equals the
message type returned with it, and then the transport handle is cleared. -/
theorem iteration_returns (unmarshal : Unmarshal) (st : LoopState) (r : ReadResult)
    (h : (iteration unmarshal st r).2 = true) :
    (iteration unmarshal st r).1.client.socketConnection = none ∧
    ∃ text, r.err = some (.CloseError r.dataCode text) := by
  cases he : r.err with
  | none =>
    have := (iteration_ok unmarshal st r he).1
    rw [h] at this
    exact absurd this (by decide)
  | some e =>
    cases e with
    | CloseError code text =>
      have hc : code = r.dataCode := (iteration_CloseError unmarshal st r code text he).mp h
      subst hc
      refine ⟨?_, text, rfl⟩
      unfold iteration
      simp [he, IsCloseError]
    | _ =>
      exfalso
      revert h
      unfold iteration
      simp only [he, IsCloseError]
      split_ifs <;> simp_all

/-- C4: for every non-empty handler registry, every connected client and every
finite sequence of successfully read frames, the handler calls made by
`listenWSMessages` are exactly those expected: one for each text frame whose
operation tag is a key of the registry, in the order of the frames, under that
key and with the frame's whole payload, and none for the other frames,
whatever the handlers return; every frame is read and the loop then waits for
the next one. -/
theorem listenWSMessages_dispatches (unmarshal : Unmarshal) (c : Client) (conn : Conn)
    (frames : List ReadResult) (hreg : c.events ≠ []) (hconn : c.socketConnection = some conn)
    (hok : ∀ r ∈ frames, r.err = none) :
    (listenWSMessages unmarshal c frames).1.calls = expectedCalls unmarshal c.events frames ∧
    (listenWSMessages unmarshal c frames).1.reads = frames.length ∧
    (listenWSMessages unmarshal c frames).2 = .reading := by
  have hlen : ¬ c.events.length = 0 := by
    intro h
    exact hreg (List.length_eq_zero.mp h)
  unfold listenWSMessages
  rw [if_neg hlen]
  obtain ⟨h1, h2, _, h4⟩ :=
    loop_ok unmarshal frames { client := c, logs := [], calls := [], reads := 0 } conn hconn hok
  refine ⟨?_, ?_, h4⟩
  · rw [h1]
    simp
  · rw [h2]
    simp

/-- C4 on the two examples: the frames `ready` then `unknown-op` with a
registry holding only `ready` give exactly one call, for the first frame; two
`ready` frames with a handler whose first call fails give two calls. -/
theorem listenWSMessages_dispatches_witness :
    (listenWSMessages sampleUnmarshal (connectedClient [(MessageReady, succeeds)])
        [{ dataCode := TextMessage, data := readyFrame, err := none },
         { dataCode := TextMessage, data := unknownFrame, err := none }]).1.calls
      = [{ op := "ready", data := readyFrame }] ∧
    (listenWSMessages sampleUnmarshal (connectedClient [(MessageReady, failsFirst)])
        [{ dataCode := TextMessage, data := readyFrame, err := none },
         { dataCode := TextMessage, data := readyFrame, err := none }]).1.calls
      = [{ op := "ready", data := readyFrame }, { op := "ready", data := readyFrame }] :=
  ⟨(listenWSMessages_dispatches sampleUnmarshal (connectedClient [(MessageReady, succeeds)])
      { id := 1, closeErr := none } _ (by simp [connectedClient, sampleClient]) rfl
      (by decide)).1.trans (by decide),
   (listenWSMessages_dispatches sampleUnmarshal (connectedClient [(MessageReady, failsFirst)])
      { id := 1, closeErr := none } _ (by simp [connectedClient, sampleClient]) rfl
      (by decide)).1.trans (by decide)⟩

/-- The log of the second example: the first handler call fails, which is
logged, and the second succeeds. -/
theorem failsFirst_logs :
    (listenWSMessages sampleUnmarshal (connectedClient [(MessageReady, failsFirst)])
        [{ dataCode := TextMessage, data := readyFrame, err := none },
         { dataCode := TextMessage, data := readyFrame, err := none }]).1.logs
      = [.Errorf "client: error on handle event %s: %v", .Debug "client: event \"%s\" parsed"] := by
  decide

/-- C5 fails on the code: a text frame that `json.Unmarshal` rejects is not
discarded. On `clashFrame` the decoding fails with `ready` stored in the
envelope, and the handler registered for `ready` is called with the payload;
on `brokenFrame` the envelope stays empty, and a handler registered under the
empty key is called. In both runs the decoding error is logged first. -/
theorem listenWSMessages_undecoded_frame_dispatched :
    (sampleUnmarshal clashFrame { Operation := "" }).2 ≠ none ∧
    (listenWSMessages sampleUnmarshal (connectedClient [(MessageReady, succeeds)])
        [{ dataCode := TextMessage, data := clashFrame, err := none }]).1.calls
      = [{ op := "ready", data := clashFrame }] ∧
    (listenWSMessages sampleUnmarshal (connectedClient [(MessageReady, succeeds)])
        [{ dataCode := TextMessage, data := clashFrame, err := none }]).1.logs
      = [.Errorf "client: error on unmarshal message: %v", .Debug "client: event \"%s\" parsed"] ∧
    (sampleUnmarshal brokenFrame { Operation := "" }).2 ≠ none ∧
    (listenWSMessages sampleUnmarshal (connectedClient [("", succeeds)])
        [{ dataCode := TextMessage, data := brokenFrame, err := none }]).1.calls
      = [{ op := "", data := brokenFrame }] := by
  decide

/-- C6 fails on the code: when the peer closes normally, `ReadMessage` returns
a close error with code 1000 and the message type -1; `IsCloseError` is asked
for the code -1 and answers false. The loop logs a read error, keeps the
transport handle and does not return: it reads again, and a second such answer
leaves it in the same state. -/
theorem listenWSMessages_close_not_detected :
    IsCloseError (.CloseError CloseNormalClosure "") [noFrame] = false ∧
    (listenWSMessages sampleUnmarshal (connectedClient [(MessageReady, succeeds)])
        [peerClosed]).2 = .reading ∧
    (listenWSMessages sampleUnmarshal (connectedClient [(MessageReady, succeeds)])
        [peerClosed]).1.client.socketConnection = some { id := 1, closeErr := none } ∧
    (listenWSMessages sampleUnmarshal (connectedClient [(MessageReady, succeeds)])
        [peerClosed]).1.logs = [.Errorf "client: error on read message: %v"] ∧
    (listenWSMessages sampleUnmarshal (connectedClient [(MessageReady, succeeds)])
        [peerClosed, peerClosed]).1.reads = 2 ∧
    (listenWSMessages sampleUnmarshal (connectedClient [(MessageReady, succeeds)])
        [peerClosed, peerClosed]).2 = .reading ∧
    (listenWSMessages sampleUnmarshal (connectedClient [(MessageReady, succeeds)])
        [{ dataCode := TextMessage, data := readyFrame, err := none }, peerClosed]).2 = .reading := by
  decide

end client
